import Mathlib

/-!
Verification development for the tailor-cv repository: a shallow embedding of
the tailoring route (app/api/tailor/route.ts), the text-body compile route
(app/api/compile/route.ts) and the archive-upload compile route
(app/api/compile/upload/route.ts), together with theorems settling the
frozen claims about them.  Strings are modelled as Lean `String`
(JavaScript string operations are re-implemented on `List Char`), byte
buffers as `List Nat`, and the external collaborators (generative-text API,
compilation service, package mirror) as oracle functions supplied in an
environment record.
-/

namespace TailorCV

/-! ## Character and string helpers (JS semantics re-implemented) -/

/-- Exact prefix test on character lists (`leadMatch pat s` iff `pat` is a
prefix of `s`). -/
def leadMatch : List Char → List Char → Bool
  | [], _ => true
  | _ :: _, [] => false
  | a :: as, b :: bs => a == b && leadMatch as bs

/-- Case-insensitive prefix test on character lists, mirroring a JS regex
with the `i` flag. -/
def leadMatchCI : List Char → List Char → Bool
  | [], _ => true
  | _ :: _, [] => false
  | a :: as, b :: bs => a.toLower == b.toLower && leadMatchCI as bs

/-- Substring test (JS `String.prototype.includes`). -/
def hasSubList (pat : List Char) : List Char → Bool
  | [] => leadMatch pat []
  | b :: bs => leadMatch pat (b :: bs) || hasSubList pat bs

/-- Case-insensitive substring test (JS regex `/pat/i.test`). -/
def hasSubListCI (pat : List Char) : List Char → Bool
  | [] => leadMatchCI pat []
  | b :: bs => leadMatchCI pat (b :: bs) || hasSubListCI pat bs

/-- `hasSub pat s` : JS `s.includes(pat)` on strings. -/
def hasSub (pat s : String) : Bool := hasSubList pat.toList s.toList

/-- `hasSubCI pat s` : JS `/pat/i.test(s)` for a literal pattern. -/
def hasSubCI (pat s : String) : Bool := hasSubListCI pat.toList s.toList

/-- JS word character (regex `\w`): ASCII letter, digit or underscore. -/
def isWordChar (c : Char) : Bool := c.isAlphanum || c == '_'

/-- Word boundary after a match (regex `\b` when the pattern ends in a word
character): the remaining text is empty or starts with a non-word char. -/
def noWordAfter : List Char → Bool
  | [] => true
  | c :: _ => !(isWordChar c)

/-- Case-insensitive token search with a trailing word boundary, modelling
JS `/pat\b/i.test(s)` for a literal `pat` ending in a word character. -/
def hasTokenWB (pat : List Char) : List Char → Bool
  | [] => false
  | b :: bs =>
    (leadMatchCI pat (b :: bs) && noWordAfter ((b :: bs).drop pat.length)) || hasTokenWB pat bs

/-- JS `String.prototype.trim` (leading and trailing whitespace removed). -/
def jsTrim (s : String) : String :=
  String.mk (((s.toList.dropWhile Char.isWhitespace).reverse.dropWhile Char.isWhitespace).reverse)

/-- JS `String.prototype.toLowerCase` (ASCII-level model). -/
def lowerStr (s : String) : String := String.mk (s.toList.map Char.toLower)

/-- JS `String.prototype.endsWith`. -/
def endsWithStr (suf s : String) : Bool := leadMatch suf.toList.reverse s.toList.reverse

/-- Node `path.basename`: the part of the path after the final slash. -/
def baseNameOf (s : String) : String :=
  String.mk ((s.toList.reverse.takeWhile (fun c => !(c == '/'))).reverse)

/-- Node `path.extname`: the suffix starting at the last dot of the name,
empty for dotfiles and names without a dot. -/
def extnameOf (s : String) : String :=
  let b := (baseNameOf s).toList
  let r := b.reverse
  let pre := r.takeWhile (fun c => !(c == '.'))
  if pre.length == r.length then ""
  else if pre.length + 1 == r.length then ""
  else String.mk ('.' :: pre.reverse)

/-- Keep-first deduplication of a string list (JS `Array.from(new Set(l))`,
insertion order). -/
def dedupStrGo (seen : List String) : List String → List String
  | [] => []
  | x :: xs => if seen.contains x then dedupStrGo seen xs else x :: dedupStrGo (x :: seen) xs

/-- Keep-first deduplication of a string list. -/
def dedupStr (l : List String) : List String := dedupStrGo [] l

/-- The byte sequence of a string's characters (ASCII-level model of UTF-8
encoding, adequate for the ASCII texts handled by the routes). -/
def strToBytes (s : String) : List Nat := s.toList.map Char.toNat

/-- Decoding a byte buffer back to characters (`TextDecoder` model). -/
def bytesToChars (b : List Nat) : List Char := b.map Char.ofNat

/-! ## Rate limiter (shared shape of both per-IP fixed-window limiters) -/

/-- One per-IP entry of the in-memory rate-limit map. -/
structure RateEntry where
  count : Nat
  resetAt : Nat
  deriving DecidableEq, Repr

/-- The rate-limit map, keyed by client IP. -/
def RMap : Type := String → Option RateEntry

/-- Point update of the rate-limit map (`map.set(ip, ent)`). -/
def updR (r : RMap) (ip : String) (e : RateEntry) : RMap :=
  fun s => if s = ip then some e else r s

/-- The effective counter of an entry at time `now`: `0` if the entry is
absent or its window elapsed, else the stored count. -/
def effCount (e : Option RateEntry) (now : Nat) : Nat :=
  match e with
  | none => 0
  | some ent => if now > ent.resetAt then 0 else ent.count

/-- The effective reset time of an entry at time `now`. -/
def effReset (e : Option RateEntry) (now win : Nat) : Nat :=
  match e with
  | none => now + win
  | some ent => if now > ent.resetAt then now + win else ent.resetAt

/-- One step of the fixed-window limiter: reset the entry when the window
elapsed, then increment the counter (the routes increment before checking
the limit). -/
def rateStep (e : Option RateEntry) (now win : Nat) : RateEntry :=
  ⟨effCount e now + 1, effReset e now win⟩

/-- Client-IP extraction from the `x-forwarded-for` header: first
comma-separated item, trimmed, defaulting to `"unknown"`. -/
def ipOf (xff : Option String) : String :=
  let s := xff.getD ""
  let first := String.mk (s.toList.takeWhile (fun c => !(c == ',')))
  let t := jsTrim first
  if t = "" then "unknown" else t

/-! ## Engine inference and PDF classification (app/api/compile/route.ts) -/

/-- The three LaTeX engines the compile route knows. -/
inductive Engine where
  | pdflatex
  | xelatex
  | lualatex
  deriving DecidableEq, Repr

/-- Pattern of the regex `/\\directlua\b/i`. -/
def directluaPat : List Char := "\\directlua".toList

/-- Pattern piece of the regex alternative `\\usepackage\{\s*fontspec\s*\}`:
its literal head. -/
def usePkgPat : List Char := "\\usepackage\x7b".toList

/-- The regex alternative `\\usepackage\{\s*fontspec\s*\}` (case-insensitive)
matching at the head of the given character list. -/
def fontspecAt (s : List Char) : Bool :=
  leadMatchCI usePkgPat s &&
    (let r1 := (s.drop usePkgPat.length).dropWhile Char.isWhitespace
     leadMatchCI "fontspec".toList r1 &&
       (let r2 := (r1.drop 8).dropWhile Char.isWhitespace
        leadMatchCI "\x7d".toList r2))

/-- Search for `\\usepackage\{\s*fontspec\s*\}` anywhere in the text. -/
def hasFontspec : List Char → Bool
  | [] => false
  | b :: bs => fontspecAt (b :: bs) || hasFontspec bs

/-- The full second regex of `inferEngine`:
`/\\usepackage\{\s*fontspec\s*\}|\\setmainfont\b|polyglossia|xeCJK/i`. -/
def fontDirective (s : List Char) : Bool :=
  hasFontspec s || hasTokenWB "\\setmainfont".toList s ||
    hasSubListCI "polyglossia".toList s || hasSubListCI "xeCJK".toList s

/-- `inferEngine` from app/api/compile/route.ts: `\directlua` selects
lualatex, else a font/multilingual directive selects xelatex, else
pdflatex. -/
def inferEngine (tex : String) : Engine :=
  if hasTokenWB directluaPat tex.toList then .lualatex
  else if fontDirective tex.toList then .xelatex
  else .pdflatex

/-- An HTTP response from the compilation service: `ok`/`status` from the
fetch response, declared content-type, raw body bytes. -/
structure HttpResp where
  ok : Bool
  status : Nat
  ctype : String
  body : List Nat
  deriving DecidableEq, Repr

/-- The four magic bytes of a PDF: ASCII `%PDF`. -/
def pdfMagic : List Nat := [37, 80, 68, 70]

/-- `isPdfHeader` of the compile routes: body strictly longer than 4 bytes
and its first four bytes decode to `%PDF`. -/
def isPdfHeader (r : HttpResp) : Bool :=
  decide (4 < r.body.length) && r.body.take 4 == pdfMagic

/-- `isPdfType`: `/pdf/i.test(contentType)`. -/
def isPdfType (r : HttpResp) : Bool := hasSubCI "pdf" r.ctype

/-- Success classification used by both compile routes:
`resp.ok && (isPdfType || isPdfHeader)`. -/
def classifySuccess (r : HttpResp) : Bool := r.ok && (isPdfType r || isPdfHeader r)

/-- Keep-first deduplication of the engine trial list, the effect of
`engines.filter((v, i, a) => a.indexOf(v) === i)`. -/
def dedupEngGo (seen : List Engine) : List Engine → List Engine
  | [] => []
  | x :: xs => if seen.contains x then dedupEngGo seen xs else x :: dedupEngGo (x :: seen) xs

/-- Keep-first deduplication of the engine trial list. -/
def dedupEng (l : List Engine) : List Engine := dedupEngGo [] l

/-- The two calling conventions tried per engine. -/
inductive Method where
  | post
  | get
  deriving DecidableEq, Repr

/-- Environment of the text-body compile route: the per-engine/method
responses of the compilation service (`none` models a thrown fetch, e.g. a
timeout), whether `tar -cjf` succeeds, and the archive-endpoint response. -/
structure CTEnv where
  attempt : Engine → Method → Option HttpResp
  tarOk : Bool
  dataResp : Option HttpResp

/-- Responses of the text-body compile route. -/
inductive CTResp where
  | invalid
  | pdf (bytes : List Nat)
  | failed
  deriving DecidableEq, Repr

/-- HTTP status of a text-body compile response. -/
def ctStatus : CTResp → Nat
  | .invalid => 400
  | .pdf _ => 200
  | .failed => 502

/-- Result of the text-body compile route: the response and the temp-file
paths (relative to the temp dir) still existing on return. -/
structure CTOut where
  resp : CTResp
  temp : List String
  deriving DecidableEq, Repr

/-- Engine trial loop of the text-body route: per engine, a POST attempt
then a GET attempt; the first response classified as a PDF wins. -/
def ctLoop (env : CTEnv) : List Engine → Option (List Nat)
  | [] => none
  | e :: rest =>
    let tryOne := fun (m : Method) =>
      match env.attempt e m with
      | some r => if classifySuccess r then some r.body else none
      | none => none
    match tryOne .post with
    | some b => some b
    | none =>
      match tryOne .get with
      | some b => some b
      | none => ctLoop env rest

/-- The document-class token checked by all routes. -/
def dcTok : String := "\\documentclass"

/-- The text-body compile route (app/api/compile/route.ts `POST`): validate
the document-class token, build the deduplicated engine trial order from
the requested or inferred engine, run the POST/GET trial loop, then fall
back to packaging `main.tex` into a bzip2 tar posted to the archive
endpoint.  `temp` records the temporary files still on disk on return: the
tar-fallback cleanup only runs after a successful archive-endpoint fetch,
so a thrown fetch or failed tar creation leaks the files to the catch
handler. -/
def compileText (env : CTEnv) (tex : String) (engineOpt : Option Engine) : CTOut :=
  if hasSub dcTok tex = false then ⟨.invalid, []⟩
  else
    let initialEng := engineOpt.getD (inferEngine tex)
    let order := dedupEng [initialEng, .xelatex, .lualatex, .pdflatex]
    match ctLoop env order with
    | some b => ⟨.pdf b, []⟩
    | none =>
      if env.tarOk = false then ⟨.failed, ["tmp", "main.tex"]⟩
      else
        match env.dataResp with
        | none => ⟨.failed, ["tmp", "main.tex", "archive.tar.bz2"]⟩
        | some r =>
          if classifySuccess r then ⟨.pdf r.body, []⟩ else ⟨.failed, []⟩

/-! ## Tailoring route (app/api/tailor/route.ts) -/

/-- Outcome of one SDK `generateContent` attempt: returned text, an
`ApiError` with status 429, or any other thrown error. -/
inductive AttemptOutcome where
  | ok (text : String)
  | err429
  | errOther
  deriving DecidableEq, Repr

/-- Loop body of `generateWithRetry`: `i` is the attempt index, `fuel` the
remaining attempts out of `maxRetries = 3`, `acc` the accumulated backoff
delays (reversed).  On a 429 the code sleeps `2^i * 1000` ms and retries;
any other error aborts; exhaustion returns the empty string.  Returns
(text, delays slept in ms, attempts made). -/
def grwGo (oracle : Nat → AttemptOutcome) : Nat → Nat → List Nat → String × List Nat × Nat
  | i, 0, acc => ("", acc.reverse, i)
  | i, f + 1, acc =>
    match oracle i with
    | .ok t => (t, acc.reverse, i + 1)
    | .err429 => grwGo oracle (i + 1) f (2 ^ i * 1000 :: acc)
    | .errOther => ("", acc.reverse, i + 1)

/-- `generateWithRetry(model)` with its default `maxRetries = 3`, given the
per-attempt outcomes of the model. -/
def generateWithRetry (oracle : Nat → AttemptOutcome) : String × List Nat × Nat :=
  grwGo oracle 0 3 []

/-- Result of the SDK candidate loop: the final text, total SDK attempts,
and the candidate models actually invoked (in order). -/
structure SdkLoopOut where
  text : String
  attempts : Nat
  invoked : List String
  deriving DecidableEq, Repr

/-- The SDK candidate loop: invoke `generateWithRetry` per model in order
and stop at the first result with non-blank trimmed text
(`if (tex && tex.trim()) break`). -/
def tryModelsSdk (oracle : String → Nat → AttemptOutcome) : List String → SdkLoopOut
  | [] => ⟨"", 0, []⟩
  | m :: rest =>
    let r := generateWithRetry (oracle m)
    if jsTrim r.1 ≠ "" then ⟨r.1, r.2.2, [m]⟩
    else
      let o := tryModelsSdk oracle rest
      ⟨o.text, r.2.2 + o.attempts, m :: o.invoked⟩

/-- Result of the raw-HTTP fallback loop: final text and calls made. -/
structure RawLoopOut where
  text : String
  calls : Nat
  deriving DecidableEq, Repr

/-- The raw-HTTP v1 fallback loop: one `rawGenerateV1` call per model,
stopping at the first non-blank text; a thrown call aborts the whole loop
(the `try` wraps the `for`). -/
def tryModelsRaw (oracle : String → Except Unit String) : List String → RawLoopOut
  | [] => ⟨"", 0⟩
  | m :: rest =>
    match oracle m with
    | .error _ => ⟨"", 1⟩
    | .ok raw =>
      if jsTrim raw ≠ "" then ⟨raw, 1⟩
      else
        let o := tryModelsRaw oracle rest
        ⟨o.text, 1 + o.calls⟩

/-- The static known-good model identifiers listed in the route. -/
def staticModels : List String :=
  ["gemini-1.5-flash-latest", "gemini-1.5-flash", "gemini-1.5-pro-latest",
   "gemini-1.5-pro", "gemini-1.5-flash-8b", "gemini-pro", "gemini-1.0-pro",
   "gemini-1.0-pro-latest", "gemini-2.0-flash-001", "gemini-2.0-pro-001"]

/-- The model filter of `validModels`: non-empty and containing neither
`embedding` nor `gecko`. -/
def modelOkStr (m : String) : Bool :=
  m != "" && !(hasSub "embedding" m) && !(hasSub "gecko" m)

/-- `validModels`: `[requestedModel, process.env.GEMINI_MODEL,
...staticModels]` with non-strings dropped and the filter applied.  The
route performs no deduplication. -/
def validModels (requested envModel : Option String) : List String :=
  ((requested :: envModel :: staticModels.map some).filterMap id).filter modelOkStr

/-- JSON body of a tailor request. -/
structure TailorBody where
  jd : Option String
  apiKey : Option String
  baseTex : Option String
  model : Option String

/-- A tailor request: the forwarded-for header and the parsed JSON body. -/
structure TailorReq where
  xff : Option String
  body : TailorBody

/-- Environment of the tailoring route: server-configured key and model,
the bundled default template `public/base.tex`, and the two generative-API
oracles (SDK and raw v1 HTTP). -/
structure TailorEnv where
  envKey : Option String
  envModel : Option String
  defaultBase : String
  sdkOracle : String → Nat → AttemptOutcome
  rawOracle : String → Except Unit String

/-- Responses of the tailoring route. -/
inductive TResp where
  | tooMany
  | badJd
  | noKey
  | upstreamFail (tried : List String)
  | okTex (tex : String)
  deriving DecidableEq, Repr

/-- HTTP status of a tailor response. -/
def tStatus : TResp → Nat
  | .tooMany => 429
  | .badJd => 400
  | .noKey => 400
  | .upstreamFail _ => 502
  | .okTex _ => 200

/-- JS falsiness of an optional string (absent or empty). -/
def strFalsy (s : Option String) : Bool :=
  match s with
  | none => true
  | some v => v == ""

/-- The validation `!jd || jd.trim().length < 16`. -/
def jdBad (jd : Option String) : Bool :=
  match jd with
  | none => true
  | some j => j == "" || decide ((jsTrim j).length < 16)

/-- `apiKey || process.env.GEMINI_API_KEY`. -/
def resolveKey (body : TailorBody) (env : TailorEnv) : Option String :=
  match body.apiKey with
  | some k => if k == "" then env.envKey else some k
  | none => env.envKey

/-- `baseTex` if truthy, else the bundled `public/base.tex`. -/
def resolveBase (body : TailorBody) (env : TailorEnv) : String :=
  match body.baseTex with
  | some b => if b == "" then env.defaultBase else b
  | none => env.defaultBase

/-- The triple-backtick fence marker. -/
def fenceMark : List Char := List.replicate 3 (Char.ofNat 96)

/-- Leading-fence removal: the replacement of
`/^\s*` + fence + `(?:latex|tex)?\s*/i` by the empty string. -/
def stripLead (l : List Char) : List Char :=
  let l1 := l.dropWhile Char.isWhitespace
  if leadMatch fenceMark l1 then
    let l2 := l1.drop 3
    let l3 :=
      if leadMatchCI "latex".toList l2 then l2.drop 5
      else if leadMatchCI "tex".toList l2 then l2.drop 3
      else l2
    l3.dropWhile Char.isWhitespace
  else l

/-- Trailing-fence removal: the replacement of `/\s*` + fence + `\s*$/i`
by the empty string. -/
def stripTrail (l : List Char) : List Char :=
  let r := l.reverse
  let r1 := r.dropWhile Char.isWhitespace
  if leadMatch fenceMark r1 then
    ((r1.drop 3).dropWhile Char.isWhitespace).reverse
  else l

/-- `stripCodeFences` of the tailoring route. -/
def stripCodeFences (s : String) : String := String.mk (stripTrail (stripLead s.toList))

/-- The final generated text of the tailoring pipeline: the SDK loop's
text when non-blank, else the raw-HTTP fallback loop's text. -/
def genFinalText (env : TailorEnv) (models : List String) : String :=
  let s := (tryModelsSdk env.sdkOracle models).text
  if jsTrim s ≠ "" then s else (tryModelsRaw env.rawOracle models).text

/-- The tailoring route after the rate-limit gate: validation, key and
base resolution, the SDK candidate loop with raw-HTTP fallback, fence
stripping and the document-class sanity check.  Returns the response with
the SDK attempt count and raw-HTTP call count. -/
def tailorCore (env : TailorEnv) (body : TailorBody) : TResp × Nat × Nat :=
  if jdBad body.jd then (.badJd, 0, 0)
  else if strFalsy (resolveKey body env) then (.noKey, 0, 0)
  else
    let base := resolveBase body env
    let models := validModels body.model env.envModel
    let sdk := tryModelsSdk env.sdkOracle models
    let rawOut := if jsTrim sdk.text ≠ "" then (⟨"", 0⟩ : RawLoopOut) else tryModelsRaw env.rawOracle models
    let t := genFinalText env models
    if jsTrim t = "" then (.upstreamFail models, sdk.attempts, rawOut.calls)
    else
      let cleaned := jsTrim (stripCodeFences t)
      if hasSub dcTok cleaned = false then (.okTex base, sdk.attempts, rawOut.calls)
      else (.okTex cleaned, sdk.attempts, rawOut.calls)

/-- Rate-limit window and cap of the tailoring route. -/
def TAILOR_MAX : Nat := 20

/-- Rate-limit window (ms) of the tailoring route. -/
def TAILOR_WIN : Nat := 60000

/-- Full result of a tailoring invocation. -/
structure TailorOut where
  resp : TResp
  sdkAttempts : Nat
  rawCalls : Nat
  rateMap : RMap

/-- The tailoring route `POST`: per-IP fixed-window rate limiting (checked
and incremented before validation), then `tailorCore`. -/
def tailor (env : TailorEnv) (rate : RMap) (now : Nat) (req : TailorReq) : TailorOut :=
  let ip := ipOf req.xff
  let ent := rateStep (rate ip) now TAILOR_WIN
  let rate2 := updR rate ip ent
  if ent.count > TAILOR_MAX then ⟨.tooMany, 0, 0, rate2⟩
  else
    let c := tailorCore env req.body
    ⟨c.1, c.2.1, c.2.2, rate2⟩

/-! ## Archive-upload compile route (app/api/compile/upload/route.ts) -/

/-- The backtick character. -/
def bq : Char := Char.ofNat 96

/-- The single-quote character. -/
def qt : Char := Char.ofNat 39

/-- Literal head of the missing-style regex: `File ` followed by a
backtick. -/
def filePat : List Char := "File ".toList ++ [bq]

/-- Literal tail of the missing-style regex after the closing quote. -/
def notFoundPat : List Char := " not found".toList

/-- The `.sty` suffix the captured segment must carry. -/
def styTail : List Char := ".sty".toList

/-- Suffix test on character lists. -/
def endsWithList (suf l : List Char) : Bool := leadMatch suf.reverse l.reverse

/-- One match of the regex `File `([^']+)\.sty' not found` at the head of
the text: returns the captured package name and the text after the match. -/
def matchStyAt (s : List Char) : Option (String × List Char) :=
  if leadMatch filePat s then
    let r := s.drop filePat.length
    let seg := r.takeWhile (fun c => !(c == qt))
    let rest := r.drop seg.length
    match rest with
    | [] => none
    | c :: rest2 =>
      if c == qt && leadMatch notFoundPat rest2 && decide (5 ≤ seg.length) &&
          endsWithList styTail seg then
        some (String.mk (seg.take (seg.length - 4)), rest2.drop notFoundPat.length)
      else none
  else none

/-- All non-overlapping matches (`matchAll` with the `g` flag), fuelled by
the text length since every match consumes at least one character. -/
def findMissingGo : Nat → List Char → List String
  | 0, _ => []
  | _, [] => []
  | fuel + 1, c :: rest =>
    match matchStyAt (c :: rest) with
    | some (name, remaining) => name :: findMissingGo fuel remaining
    | none => findMissingGo fuel rest

/-- The missing-package names scanned from a failure body. -/
def findMissing (s : List Char) : List String := findMissingGo s.length s

/-- An uploaded file: name, reported size and content bytes. -/
structure UploadFile where
  name : String
  size : Nat
  content : List Nat
  deriving DecidableEq, Repr

/-- An upload request: forwarded-for header, content-type header, the
`file` form field and the `onlyArchive` query parameter. -/
structure UploadReq where
  xff : Option String
  contentType : String
  file : Option UploadFile
  onlyArchive : Option String

/-- Environment of the upload route: whether the `tar` invocations
succeed, the archive-endpoint responses of the compilation service
(`none` models a thrown fetch) and the CTAN mirror oracle. -/
structure UploadEnv where
  tarOk : Bool
  firstResp : Option HttpResp
  ctan : String → Option (List Nat)
  tarRetryOk : Bool
  retryResp : Option HttpResp

/-- What is sent to (or returned from) the archive path: an archive built
locally from a `.tex` upload (listing its tar entries) or the uploaded
archive passed through unchanged. -/
inductive SentArchive where
  | builtFromTex (entries : List String)
  | passthrough (content : List Nat)
  deriving DecidableEq, Repr

/-- Responses of the upload route. -/
inductive UploadResp where
  | tooMany
  | badContentType
  | missingFile
  | badExt
  | tooLarge
  | tarFail
  | archive (a : SentArchive) (ctype : String)
  | pdf (bytes : List Nat)
  | log (body : List Nat) (status : Nat)
  | internal
  deriving DecidableEq, Repr

/-- HTTP status of an upload-route response. -/
def uStatus : UploadResp → Nat
  | .tooMany => 429
  | .badContentType => 400
  | .missingFile => 400
  | .badExt => 400
  | .tooLarge => 413
  | .tarFail => 500
  | .archive _ _ => 200
  | .pdf _ => 200
  | .log _ s => s
  | .internal => 500

/-- Result of the upload route before the rate-map is attached: response,
temp-file paths still on disk on return, calls made to the compilation
service, package names fetched from the mirror, and the entry list of the
rebuilt retry archive when one was built. -/
structure UploadCore where
  resp : UploadResp
  temp : List String
  compileCalls : Nat
  fetched : List String
  retryArchive : Option (List String)
  deriving DecidableEq, Repr

/-- Tail of the upload route once the first archive-endpoint response `r`
arrived.  When the response failed and the archive was locally built from
a `.tex` upload (`isTex`), the missing-`.sty` recovery runs: scan the
body, fetch each (deduplicated) missing package from the mirror, and if
any fetch succeeded rebuild the archive and retry once.  The rebuilt
archive is created by `tar -cjf ... -C workdir main.tex`, so its entry
list is `["main.tex"]` — the fetched `.sty` files written into the workdir
are not named in the tar command.  All paths here run `cleanup()` before
returning. -/
def afterFirst (env : UploadEnv) (r : HttpResp) (isTex : Bool) : UploadCore :=
  let finish : Nat → List String → UploadCore := fun calls fetched =>
    if classifySuccess r then ⟨.pdf r.body, [], calls, fetched, none⟩
    else ⟨.log r.body r.status, [], calls, fetched, none⟩
  if !r.ok && isTex then
    let missing := findMissing (bytesToChars r.body)
    if missing = [] then finish 1 []
    else
      let fetched := (dedupStr missing).filter (fun s => (env.ctan s).isSome)
      if fetched = [] then finish 1 []
      else if env.tarRetryOk = false then finish 1 fetched
      else
        match env.retryResp with
        | none => ⟨.log r.body r.status, [], 2, fetched, some ["main.tex"]⟩
        | some r2 =>
          if classifySuccess r2 then ⟨.pdf r2.body, [], 2, fetched, some ["main.tex"]⟩
          else ⟨.log r2.body r.status, [], 2, fetched, some ["main.tex"]⟩
  else finish 1 []

/-- The allowed upload extensions. -/
def allowedExts : List String := [".tex", ".tar", ".tar.bz2", ".tbz2", ".tar.bz"]

/-- `String(file.name || "upload")`. -/
def jsName (n : String) : String := if n = "" then "upload" else n

/-- The upload route after the rate-limit gate: content-type check, file
presence, extension allow-list on the basename, size ceiling, temp-dir
creation and receipt of the upload, archive building for `.tex` uploads,
the `onlyArchive` early return, the archive-endpoint POST and the
missing-package recovery.  `temp` lists the temp paths still on disk on
return: the `onlyArchive` return and a thrown archive-endpoint fetch skip
`cleanup()`. -/
def uploadCore (env : UploadEnv) (maxBytes : Nat) (req : UploadReq) : UploadCore :=
  if hasSub "multipart/form-data" req.contentType = false then ⟨.badContentType, [], 0, [], none⟩
  else
    match req.file with
    | none => ⟨.missingFile, [], 0, [], none⟩
    | some f =>
      let lowerName := lowerStr (baseNameOf (jsName f.name))
      if (allowedExts.any fun e => endsWithStr e lowerName) = false then ⟨.badExt, [], 0, [], none⟩
      else if maxBytes < f.size then ⟨.tooLarge, [], 0, [], none⟩
      else
        let isTex := endsWithStr ".tex" (lowerStr f.name)
        if isTex && !env.tarOk then ⟨.tarFail, [], 0, [], none⟩
        else
          let temp0 :=
            if isTex then ["tmp", "received", "work", "work/main.tex", "archive.tar.bz2"]
            else ["tmp", "received"]
          let sent : SentArchive :=
            if isTex then .builtFromTex ["main.tex"] else .passthrough f.content
          let archiveName := if isTex then "archive.tar.bz2" else f.name
          if req.onlyArchive = some "1" ∨ req.onlyArchive = some "true" then
            let ext := lowerStr (extnameOf archiveName)
            let ct :=
              if hasSub ".bz2" ext || hasSub ".tbz" ext then "application/x-bzip2"
              else "application/x-tar"
            ⟨.archive sent ct, temp0, 0, [], none⟩
          else
            match env.firstResp with
            | none => ⟨.internal, temp0, 1, [], none⟩
            | some r => afterFirst env r isTex

/-- Rate-limit cap of the upload route. -/
def UPLOAD_MAX : Nat := 30

/-- Rate-limit window (ms) of the upload route. -/
def UPLOAD_WIN : Nat := 60000

/-- Full result of an upload-route invocation. -/
structure UploadOut where
  resp : UploadResp
  temp : List String
  compileCalls : Nat
  fetched : List String
  retryArchive : Option (List String)
  rateMap : RMap

/-- The upload route `POST`: per-IP fixed-window rate limiting, then
`uploadCore`. -/
def uploadCompile (env : UploadEnv) (rate : RMap) (now maxBytes : Nat) (req : UploadReq) :
    UploadOut :=
  let ip := ipOf req.xff
  let ent := rateStep (rate ip) now UPLOAD_WIN
  let rate2 := updR rate ip ent
  if ent.count > UPLOAD_MAX then ⟨.tooMany, [], 0, [], none, rate2⟩
  else
    let c := uploadCore env maxBytes req
    ⟨c.resp, c.temp, c.compileCalls, c.fetched, c.retryArchive, rate2⟩

/-! ## Concrete inputs used by witnesses and counterexamples -/

/-- The empty rate-limit map (fresh server process). -/
def emptyRate : RMap := fun _ => none

/-- A `.tex` upload with the archive-only query parameter set. -/
def c1req : UploadReq :=
  ⟨some "1.1.1.1", "multipart/form-data", some ⟨"resume.tex", 10, [97, 98]⟩, some "1"⟩

/-- Upload environment whose archive-endpoint fetch throws (timeout). -/
def c1envU : UploadEnv := ⟨true, none, fun _ => none, true, none⟩

/-- Text-route environment: every direct attempt fails with a non-ok text
response and the archive-endpoint fetch throws. -/
def c1envT : CTEnv := ⟨fun _ _ => some ⟨false, 500, "text/plain", [101]⟩, true, none⟩

/-- Tailoring environment whose SDK calls all throw a non-429 error and
whose raw-HTTP calls all throw. -/
def cFailEnv : TailorEnv := ⟨none, none, "BASEDOC", fun _ _ => .errOther, fun _ => .error ()⟩

/-- Tailoring environment whose first SDK call returns prose with no
document-class token. -/
def c2wEnv : TailorEnv :=
  ⟨none, none, "BASEDOC", fun _ _ => .ok "plain prose and nothing else", fun _ => .error ()⟩

/-- A valid tailor request supplying its own base resume. -/
def c2wReq : TailorReq :=
  ⟨none, ⟨some "a sufficiently long job description", some "k", some "MYBASE", none⟩⟩

/-- An ok response declared `text/plain` whose body is the five bytes
`%PDF-`. -/
def c3resp : HttpResp := ⟨true, 200, "text/plain", [37, 80, 68, 70, 45]⟩

/-- Text-route environment answering every attempt with `c3resp`. -/
def c3env : CTEnv := ⟨fun _ _ => some c3resp, true, none⟩

/-- A rate map whose entry for `9.9.9.9` already sits at the cap inside an
open window. -/
def c4rate : RMap := fun s => if s = "9.9.9.9" then some ⟨20, 10000⟩ else none

/-- A tailor request from `9.9.9.9` with a too-short job description. -/
def c4req : TailorReq := ⟨some "9.9.9.9", ⟨some "short", none, none, none⟩⟩

/-- A valid tailor request that repeats a static model identifier as the
requested model. -/
def c5req : TailorReq :=
  ⟨none, ⟨some "a sufficiently long job description", some "k", some "X", some "gemini-pro"⟩⟩

/-- Tailoring environment answering 429 on every SDK attempt and empty
text on every raw-HTTP call. -/
def c5wEnv : TailorEnv := ⟨none, none, "B", fun _ _ => .err429, fun _ => .ok ""⟩

/-- Failure body of the first archive attempt: a missing
`fontawesome5.sty` diagnostic. -/
def c7body : List Nat :=
  strToBytes "File " ++ [96] ++ strToBytes "fontawesome5.sty" ++ [39] ++ strToBytes " not found"

/-- Upload environment: first archive attempt fails with `c7body`, the
mirror serves `fontawesome5`, the retried attempt also fails. -/
def c7env : UploadEnv :=
  ⟨true, some ⟨false, 400, "text/plain", c7body⟩,
   (fun s => if s = "fontawesome5" then some [115] else none),
   true, some ⟨false, 400, "text/plain", [33]⟩⟩

/-- Like `c7env` but with a mirror that never serves any package. -/
def c7envNoFetch : UploadEnv :=
  ⟨true, some ⟨false, 400, "text/plain", c7body⟩, (fun _ => none), true, none⟩

/-- A plain `.tex` upload without the archive-only parameter. -/
def c7req : UploadReq := ⟨none, "multipart/form-data", some ⟨"resume.tex", 3, [97]⟩, none⟩

/-- SDK oracle distinguishing a persistently-rate-limited model, an
immediately-failing model and a first-attempt-success model. -/
def c8oracle : String → Nat → AttemptOutcome := fun m i =>
  if m = "m429" then .err429
  else if m = "mOther" then .errOther
  else if m = "good" then (if i = 0 then .ok "TEXT" else .errOther)
  else .errOther

/-- A pre-built `.tar` upload with the archive-only parameter set. -/
def c10req : UploadReq := ⟨none, "multipart/form-data", some ⟨"x.tar", 4, [1, 2]⟩, some "true"⟩

/-! ## Shared helper lemmas -/

/-- Keep-first dedup of a non-empty list keeps its head first. -/
theorem dedupEng_cons (e : Engine) (l : List Engine) :
    dedupEng (e :: l) = e :: dedupEngGo [e] l := by
  simp [dedupEng, dedupEngGo]

/-- If every `ok` outcome of the oracle is blank, the retry loop's text is
blank. -/
theorem grwGo_blank (oracle : Nat → AttemptOutcome)
    (h : ∀ i t, oracle i = .ok t → jsTrim t = "") :
    ∀ f i acc, jsTrim (grwGo oracle i f acc).1 = "" := by
  intro f
  induction f with
  | zero => intro i acc; rfl
  | succ n ih =>
    intro i acc
    cases ho : oracle i with
    | ok t =>
      have := h i t ho
      simp [grwGo, ho, this]
    | err429 => simpa [grwGo, ho] using ih (i + 1) (2 ^ i * 1000 :: acc)
    | errOther => simp [grwGo, ho]; rfl

/-- If every `ok` outcome of the oracle is blank, the SDK candidate loop's
text is blank. -/
theorem tryModelsSdk_blank (oracle : String → Nat → AttemptOutcome)
    (h : ∀ m i t, oracle m i = .ok t → jsTrim t = "") :
    ∀ l, jsTrim (tryModelsSdk oracle l).text = "" := by
  intro l
  induction l with
  | nil => rfl
  | cons m rest ih =>
    have hb : jsTrim (generateWithRetry (oracle m)).1 = "" :=
      grwGo_blank (oracle m) (h m) 3 0 []
    simp [tryModelsSdk, hb, ih]

/-- If every successful raw-HTTP call is blank, the fallback loop's text
is blank. -/
theorem tryModelsRaw_blank (oracle : String → Except Unit String)
    (h : ∀ m t, oracle m = .ok t → jsTrim t = "") :
    ∀ l, jsTrim (tryModelsRaw oracle l).text = "" := by
  intro l
  induction l with
  | nil => rfl
  | cons m rest ih =>
    cases ho : oracle m with
    | error e => simp [tryModelsRaw, ho]; rfl
    | ok raw =>
      have := h m raw ho
      simp [tryModelsRaw, ho, this, ih]

/-- Blank SDK and raw oracles make the whole generation phase blank. -/
theorem genFinalText_blank (env : TailorEnv)
    (h4 : ∀ m i t, env.sdkOracle m i = .ok t → jsTrim t = "")
    (h5 : ∀ m t, env.rawOracle m = .ok t → jsTrim t = "")
    (models : List String) : jsTrim (genFinalText env models) = "" := by
  simp [genFinalText, tryModelsSdk_blank _ h4 models, tryModelsRaw_blank _ h5 models]

/-- Under the archive-only query parameter no call to the compilation
service is made, on any path. -/
theorem uploadCore_calls_onlyArchive (env : UploadEnv) (maxBytes : Nat) (req : UploadReq)
    (hq : req.onlyArchive = some "1" ∨ req.onlyArchive = some "true") :
    (uploadCore env maxBytes req).compileCalls = 0 := by
  simp only [uploadCore]
  repeat' split
  all_goals rfl

/-! ## Claim theorems -/

/-- Claim C1: the claim says every compile invocation deletes all the
temporary files it created on every exit path.  The code violates this:
the archive-upload route's archive-only early return succeeds (HTTP 200)
while leaving the received file, the work dir with `main.tex` and the
built archive on disk, and in the text-body route a thrown
archive-endpoint fetch reaches the catch handler with the temp files
still on disk.  This theorem evaluates both routes at such inputs. -/
theorem c1_cleanup_violation :
    (uploadCompile c1envU emptyRate 0 5242880 c1req).resp
        = .archive (.builtFromTex ["main.tex"]) "application/x-bzip2" ∧
    uStatus (uploadCompile c1envU emptyRate 0 5242880 c1req).resp = 200 ∧
    (uploadCompile c1envU emptyRate 0 5242880 c1req).temp
        = ["tmp", "received", "work", "work/main.tex", "archive.tar.bz2"] ∧
    (uploadCompile c1envU emptyRate 0 5242880 c1req).temp ≠ [] ∧
    (compileText c1envT "\\documentclass\x7barticle\x7d" none).resp = .failed ∧
    (compileText c1envT "\\documentclass\x7barticle\x7d" none).temp ≠ [] := by
  decide

/-- Claim C6: engine inference is a pure function with the priority order
`\directlua` → lualatex, else a font/multilingual directive
(`\usepackage{fontspec}`, `\setmainfont`, `polyglossia`, `xeCJK`) →
xelatex, else pdflatex. -/
theorem c6_engine_inference (tex : String) :
    (hasTokenWB directluaPat tex.toList = true → inferEngine tex = .lualatex) ∧
    (hasTokenWB directluaPat tex.toList = false → fontDirective tex.toList = true →
      inferEngine tex = .xelatex) ∧
    (hasTokenWB directluaPat tex.toList = false → fontDirective tex.toList = false →
      inferEngine tex = .pdflatex) := by
  have e : tex.toList = tex.data := rfl
  refine ⟨fun h => ?_, fun h1 h2 => ?_, fun h1 h2 => ?_⟩
  · rw [e] at h; simp [inferEngine, h]
  · rw [e] at h1 h2; simp [inferEngine, h1, h2]
  · rw [e] at h1 h2; simp [inferEngine, h1, h2]

/-- Witness for C6 at the spec's concrete scenarios. -/
theorem c6_engine_inference_witness :
    inferEngine "\\directlua\x7bx\x7d" = .lualatex ∧
    inferEngine "\\usepackage\x7bfontspec\x7d" = .xelatex ∧
    inferEngine "\\setmainfont\x7bArial\x7d" = .xelatex ∧
    inferEngine "\\documentclass\x7barticle\x7d" = .pdflatex :=
  ⟨(c6_engine_inference _).1 (by decide),
   (c6_engine_inference _).2.1 (by decide) (by decide),
   (c6_engine_inference _).2.1 (by decide) (by decide),
   (c6_engine_inference _).2.2 (by decide) (by decide)⟩

/-- Claim C7: the claim says the single missing-package retry rebuilds the
archive with the fetched `.sty` files included.  The code fetches the
packages and writes them into the work dir, but the rebuilt retry archive
(`tar -cjf ... -C workdir main.tex`) names only `main.tex`, so the fetched
files are not included.  Evaluated at a failing input; the no-successful-
fetch half of the claim (no retry, original text and status returned) does
hold and is evaluated in the last conjuncts. -/
theorem c7_retry_archive_missing_sty :
    (uploadCompile c7env emptyRate 0 5242880 c7req).fetched = ["fontawesome5"] ∧
    (uploadCompile c7env emptyRate 0 5242880 c7req).compileCalls = 2 ∧
    (uploadCompile c7env emptyRate 0 5242880 c7req).retryArchive = some ["main.tex"] ∧
    ¬ "fontawesome5.sty" ∈
        ((uploadCompile c7env emptyRate 0 5242880 c7req).retryArchive.getD []) ∧
    (uploadCompile c7env emptyRate 0 5242880 c7req).resp = .log [33] 400 ∧
    (uploadCompile c7envNoFetch emptyRate 0 5242880 c7req).retryArchive = none ∧
    (uploadCompile c7envNoFetch emptyRate 0 5242880 c7req).compileCalls = 1 ∧
    (uploadCompile c7envNoFetch emptyRate 0 5242880 c7req).resp = .log c7body 400 := by
  decide

/-- Claim C2: when the request passes rate limiting and validation and the
generation phase yields non-blank text whose fence-stripped, trimmed form
contains no `\documentclass` token, the route returns the resolved base
resume unchanged with HTTP 200 — never the failed AI output and never an
error. -/
theorem c2_degrades_to_base (env : TailorEnv) (rate : RMap) (now : Nat) (req : TailorReq)
    (h1 : (rateStep (rate (ipOf req.xff)) now TAILOR_WIN).count ≤ TAILOR_MAX)
    (h2 : jdBad req.body.jd = false)
    (h3 : strFalsy (resolveKey req.body env) = false)
    (h4 : jsTrim (genFinalText env (validModels req.body.model env.envModel)) ≠ "")
    (h5 : hasSub dcTok (jsTrim (stripCodeFences
        (genFinalText env (validModels req.body.model env.envModel)))) = false) :
    (tailor env rate now req).resp = .okTex (resolveBase req.body env) ∧
    tStatus (tailor env rate now req).resp = 200 := by
  have hnl := Nat.not_lt.mpr h1
  simp [tailor, tailorCore, tStatus, hnl, h2, h3, h4, h5]

/-- Witness for C2: the model answers prose without a document-class
token and the route returns the caller's base resume with 200. -/
theorem c2_degrades_to_base_witness :
    (tailor c2wEnv emptyRate 0 c2wReq).resp = .okTex "MYBASE" ∧
    tStatus (tailor c2wEnv emptyRate 0 c2wReq).resp = 200 := by
  have h := c2_degrades_to_base c2wEnv emptyRate 0 c2wReq (by decide) (by decide) (by decide)
    (by decide) (by decide)
  exact ⟨h.1.trans (by decide), h.2⟩

/-- Claim C3 counterexample: an HTTP-ok `text/plain` response whose body
is exactly the four bytes `%PDF` satisfies the claim's premise (first four
bytes equal `%PDF`) but is not classified as a successful PDF, because the
code additionally requires the body to be strictly longer than four
bytes. -/
theorem c3_counterexample :
    ((⟨true, 200, "text/plain", [37, 80, 68, 70]⟩ : HttpResp)).body.take 4 = pdfMagic ∧
    ((⟨true, 200, "text/plain", [37, 80, 68, 70]⟩ : HttpResp)).ok = true ∧
    classifySuccess ⟨true, 200, "text/plain", [37, 80, 68, 70]⟩ = false := by
  decide

/-- Claim C3 (amended): for every HTTP-ok compilation-service response
whose body is strictly longer than four bytes and starts with the ASCII
bytes `%PDF`, the classifier reports success regardless of the declared
content-type, and when such a response answers the first attempt of the
text-body route the route returns exactly those bytes as the PDF. -/
theorem c3_signature_classification (r : HttpResp)
    (h1 : r.ok = true) (h2 : 4 < r.body.length) (h3 : r.body.take 4 = pdfMagic) :
    classifySuccess r = true ∧
    ∀ (env : CTEnv) (tex : String) (engineOpt : Option Engine),
      hasSub dcTok tex = true →
      env.attempt (engineOpt.getD (inferEngine tex)) Method.post = some r →
      (compileText env tex engineOpt).resp = CTResp.pdf r.body := by
  have hcs : classifySuccess r = true := by
    simp [classifySuccess, isPdfHeader, h1, h2, h3]
  refine ⟨hcs, ?_⟩
  intro env tex engineOpt hdc hat
  have hloop : ctLoop env
      (engineOpt.getD (inferEngine tex) :: dedupEngGo [engineOpt.getD (inferEngine tex)]
        [.xelatex, .lualatex, .pdflatex]) = some r.body := by
    simp [ctLoop, hat, hcs]
  simp [compileText, hdc, dedupEng_cons, hloop]

/-- Witness for C3: a `text/plain`-labelled ok response with body
`%PDF-` is classified as success and returned by the route. -/
theorem c3_signature_classification_witness :
    classifySuccess c3resp = true ∧
    (compileText c3env "\\documentclass\x7barticle\x7d" none).resp
        = CTResp.pdf [37, 80, 68, 70, 45] := by
  have h := c3_signature_classification c3resp rfl (by decide) (by decide)
  exact ⟨h.1, (h.2 c3env "\\documentclass\x7barticle\x7d" none (by decide) rfl).trans (by decide)⟩

/-- Claim C4 counterexample: a request whose job description is too short
but whose client IP already sits at the rate cap receives the 429
rate-limit response, not the 400 validation response — so the claim as
universally stated fails. -/
theorem c4_counterexample :
    jdBad c4req.body.jd = true ∧
    (tailor cFailEnv c4rate 500 c4req).resp = .tooMany ∧
    tStatus (tailor cFailEnv c4rate 500 c4req).resp = 429 ∧
    (tailor cFailEnv c4rate 500 c4req).resp ≠ .badJd := by
  decide

/-- Claim C4 (amended): when the client's incremented rate-window counter
does not exceed the cap, a request whose job description is missing or has
trimmed length below 16 fails with the 400 validation response and makes
no SDK or raw-HTTP call. -/
theorem c4_validation_short_circuit (env : TailorEnv) (rate : RMap) (now : Nat) (req : TailorReq)
    (h1 : jdBad req.body.jd = true)
    (h2 : (rateStep (rate (ipOf req.xff)) now TAILOR_WIN).count ≤ TAILOR_MAX) :
    (tailor env rate now req).resp = .badJd ∧
    tStatus (tailor env rate now req).resp = 400 ∧
    (tailor env rate now req).sdkAttempts = 0 ∧
    (tailor env rate now req).rawCalls = 0 := by
  have hnl := Nat.not_lt.mpr h2
  simp [tailor, tailorCore, tStatus, hnl, h1]

/-- Witness for C4 (amended) at a fresh rate map and a short job
description. -/
theorem c4_validation_short_circuit_witness :
    (tailor cFailEnv emptyRate 0 c4req).resp = .badJd ∧
    tStatus (tailor cFailEnv emptyRate 0 c4req).resp = 400 ∧
    (tailor cFailEnv emptyRate 0 c4req).sdkAttempts = 0 ∧
    (tailor cFailEnv emptyRate 0 c4req).rawCalls = 0 :=
  c4_validation_short_circuit cFailEnv emptyRate 0 c4req (by decide) (by decide)

/-- Claim C5 counterexample: with requested model `gemini-pro` (also a
static candidate) and every attempt failing, the attached attempted-model
list has length 11 while the deduplicated candidate list has length 10 —
the route never deduplicates, so the claimed equality fails. -/
theorem c5_counterexample :
    (tailor cFailEnv emptyRate 0 c5req).resp
        = .upstreamFail (validModels (some "gemini-pro") none) ∧
    (validModels (some "gemini-pro") none).length = 11 ∧
    (dedupStr (validModels (some "gemini-pro") none)).length = 10 := by
  decide

/-- Claim C5 (amended): for a valid request in which every SDK attempt and
every raw-HTTP call yields blank text, the route fails with the 502
response carrying exactly the filtered — but not deduplicated — candidate
list `[requestedModel, serverDefaultModel, ...staticModels]` minus
non-strings, empties and identifiers containing `embedding` or `gecko`. -/
theorem c5_upstream_exhausted (env : TailorEnv) (rate : RMap) (now : Nat) (req : TailorReq)
    (h1 : (rateStep (rate (ipOf req.xff)) now TAILOR_WIN).count ≤ TAILOR_MAX)
    (h2 : jdBad req.body.jd = false)
    (h3 : strFalsy (resolveKey req.body env) = false)
    (h4 : ∀ m i t, env.sdkOracle m i = .ok t → jsTrim t = "")
    (h5 : ∀ m t, env.rawOracle m = .ok t → jsTrim t = "") :
    (tailor env rate now req).resp = .upstreamFail (validModels req.body.model env.envModel) ∧
    tStatus (tailor env rate now req).resp = 502 := by
  have hnl := Nat.not_lt.mpr h1
  have hb := genFinalText_blank env h4 h5 (validModels req.body.model env.envModel)
  simp [tailor, tailorCore, tStatus, hnl, h2, h3, hb]

/-- Witness for C5 (amended): persistent 429s on the SDK path and blank
raw-HTTP results exhaust all candidates and return the 11-entry tried
list. -/
theorem c5_upstream_exhausted_witness :
    (tailor c5wEnv emptyRate 0 c5req).resp
        = .upstreamFail (validModels (some "gemini-pro") none) ∧
    tStatus (tailor c5wEnv emptyRate 0 c5req).resp = 502 :=
  c5_upstream_exhausted c5wEnv emptyRate 0 c5req (by decide) (by decide) (by decide)
    (fun _ _ _ h => nomatch h) (fun _ t h => by cases h; rfl)

/-- Claim C8: per candidate model, a persistent HTTP 429 is retried up to
`maxRetries = 3` attempts with backoff sleeps of 1s, 2s, 4s before moving
on; any other error abandons the model after a single attempt without a
sleep; and the candidate loop stops at the first model whose text is
non-blank, never invoking any later candidate. -/
theorem c8_retry_and_first_success (oracle : String → Nat → AttemptOutcome) (m : String)
    (l1 l2 : List String) :
    ((∀ i, oracle m i = .err429) →
      generateWithRetry (oracle m) = ("", [1000, 2000, 4000], 3)) ∧
    (oracle m 0 = .errOther → generateWithRetry (oracle m) = ("", [], 1)) ∧
    ((∀ m1 ∈ l1, jsTrim (generateWithRetry (oracle m1)).1 = "") →
      jsTrim (generateWithRetry (oracle m)).1 ≠ "" →
      (tryModelsSdk oracle (l1 ++ m :: l2)).invoked = l1 ++ [m] ∧
      (tryModelsSdk oracle (l1 ++ m :: l2)).text = (generateWithRetry (oracle m)).1) := by
  refine ⟨?_, ?_, ?_⟩
  · intro h
    simp [generateWithRetry, grwGo, h 0, h 1, h 2]
  · intro h
    simp [generateWithRetry, grwGo, h]
  · intro hb hn
    induction l1 with
    | nil => simp [tryModelsSdk, hn]
    | cons a rest ih =>
      have ha : jsTrim (generateWithRetry (oracle a)).1 = "" := hb a (by simp)
      have := ih (fun m1 hm => hb m1 (by simp [hm]))
      simp [tryModelsSdk, ha, this]

/-- Witness for C8: a persistently rate-limited model, an
immediately-failing model, and a loop that stops at the first successful
model without touching the one after it. -/
theorem c8_retry_and_first_success_witness :
    generateWithRetry (c8oracle "m429") = ("", [1000, 2000, 4000], 3) ∧
    generateWithRetry (c8oracle "mOther") = ("", [], 1) ∧
    (tryModelsSdk c8oracle (["m429", "mOther"] ++ "good" :: ["later"])).invoked
        = ["m429", "mOther"] ++ ["good"] ∧
    (tryModelsSdk c8oracle (["m429", "mOther"] ++ "good" :: ["later"])).text
        = (generateWithRetry (c8oracle "good")).1 := by
  have ha := c8_retry_and_first_success c8oracle "m429" [] []
  have hb := c8_retry_and_first_success c8oracle "mOther" [] []
  have hc := c8_retry_and_first_success c8oracle "good" ["m429", "mOther"] ["later"]
  exact ⟨ha.1 (fun i => rfl), hb.2.1 rfl,
    (hc.2.2 (by decide) (by decide)).1, (hc.2.2 (by decide) (by decide)).2⟩

/-- Claim C9: the tailoring route checks and increments the per-IP counter
before validating the body — every parsed request stores the incremented
entry, and once the incremented counter exceeds the cap the response is
the 429 rate-limit response regardless of the body's validity. -/
theorem c9_rate_limit_before_validation (env : TailorEnv) (rate : RMap) (now : Nat)
    (req : TailorReq) :
    (tailor env rate now req).rateMap (ipOf req.xff)
        = some (rateStep (rate (ipOf req.xff)) now TAILOR_WIN) ∧
    (rateStep (rate (ipOf req.xff)) now TAILOR_WIN).count
        = effCount (rate (ipOf req.xff)) now + 1 ∧
    ((rateStep (rate (ipOf req.xff)) now TAILOR_WIN).count > TAILOR_MAX →
      (tailor env rate now req).resp = .tooMany ∧
      tStatus (tailor env rate now req).resp = 429) := by
  refine ⟨?_, rfl, fun h => ?_⟩
  · by_cases h : (rateStep (rate (ipOf req.xff)) now TAILOR_WIN).count > TAILOR_MAX <;>
      simp [tailor, h, updR]
  · simp [tailor, tStatus, h]

/-- Witness for C9: an invalid (too-short) request from an IP at the cap
consumes one more unit (21) and receives the 429 response. -/
theorem c9_rate_limit_before_validation_witness :
    (tailor cFailEnv c4rate 500 c4req).resp = .tooMany ∧
    tStatus (tailor cFailEnv c4rate 500 c4req).resp = 429 ∧
    (tailor cFailEnv c4rate 500 c4req).rateMap "9.9.9.9" = some ⟨21, 10000⟩ := by
  have h := c9_rate_limit_before_validation cFailEnv c4rate 500 c4req
  have h3 := h.2.2 (by decide)
  exact ⟨h3.1, h3.2, h.1.trans (by decide)⟩

/-- Claim C10: with the query parameter `onlyArchive=1` or
`onlyArchive=true`, the upload route never calls the compilation service
on any path, and a request that passes rate limiting and upload validation
receives the built (or passed-through) archive with HTTP 200 and an
archive content-type. -/
theorem c10_only_archive (env : UploadEnv) (rate : RMap) (now maxBytes : Nat) (req : UploadReq)
    (hq : req.onlyArchive = some "1" ∨ req.onlyArchive = some "true") :
    (uploadCompile env rate now maxBytes req).compileCalls = 0 ∧
    (∀ f, req.file = some f →
      (rateStep (rate (ipOf req.xff)) now UPLOAD_WIN).count ≤ UPLOAD_MAX →
      hasSub "multipart/form-data" req.contentType = true →
      (allowedExts.any fun e => endsWithStr e (lowerStr (baseNameOf (jsName f.name)))) = true →
      f.size ≤ maxBytes →
      (endsWithStr ".tex" (lowerStr f.name) && !env.tarOk) = false →
      ∃ a ct, (uploadCompile env rate now maxBytes req).resp = .archive a ct ∧
        uStatus (uploadCompile env rate now maxBytes req).resp = 200 ∧
        (ct = "application/x-bzip2" ∨ ct = "application/x-tar")) := by
  constructor
  · by_cases hrl : (rateStep (rate (ipOf req.xff)) now UPLOAD_WIN).count > UPLOAD_MAX
    · simp [uploadCompile, hrl]
    · simp [uploadCompile, hrl, uploadCore_calls_onlyArchive env maxBytes req hq]
  · intro f hf hrl hct hext hsize htar
    have hnl := Nat.not_lt.mpr hrl
    have hns := Nat.not_lt.mpr hsize
    have hcore : ∃ a ct, (uploadCore env maxBytes req).resp = .archive a ct ∧
        (ct = "application/x-bzip2" ∨ ct = "application/x-tar") := by
      simp only [uploadCore, hf]
      rw [if_neg (by simp [hct]), if_neg (by simp [hext]), if_neg (by simpa using hns),
        if_neg (by simp [htar]), if_pos hq]
      by_cases hbz : (hasSub ".bz2" (lowerStr (extnameOf
          (if endsWithStr ".tex" (lowerStr f.name) = true then "archive.tar.bz2" else f.name)))
          || hasSub ".tbz" (lowerStr (extnameOf
          (if endsWithStr ".tex" (lowerStr f.name) = true then "archive.tar.bz2" else f.name)))) =
          true
      · exact ⟨_, _, by rw [if_pos hbz], Or.inl rfl⟩
      · exact ⟨_, _, by rw [if_neg hbz], Or.inr rfl⟩
    obtain ⟨a, ct, hresp, hct2⟩ := hcore
    refine ⟨a, ct, ?_, ?_, hct2⟩
    · simp [uploadCompile, hnl, hresp]
    · simp [uploadCompile, hnl, hresp, uStatus]

/-- Witness for C10: a `.tar` passthrough upload with `onlyArchive=true`
makes no compilation-service call and gets the archive back with 200. -/
theorem c10_only_archive_witness :
    (uploadCompile c1envU emptyRate 0 5242880 c10req).compileCalls = 0 ∧
    ∃ a ct, (uploadCompile c1envU emptyRate 0 5242880 c10req).resp = .archive a ct ∧
      uStatus (uploadCompile c1envU emptyRate 0 5242880 c10req).resp = 200 ∧
      (ct = "application/x-bzip2" ∨ ct = "application/x-tar") := by
  have h := c10_only_archive c1envU emptyRate 0 5242880 c10req (Or.inr rfl)
  exact ⟨h.1, h.2 ⟨"x.tar", 4, [1, 2]⟩ rfl (by decide) (by decide) (by decide) (by decide)
    (by decide)⟩

end TailorCV
